import Mathlib

/-!
Verification of the scilpy command-line scripts against their
natural-language specification.

The development shallowly embeds the three scripts

  * scripts/scil_summarize_bundles_similarity_measures.py
  * scripts/scil_endpoints_metric.py
  * scripts/scil_screenshot_dti.py

as executable Lean definitions and proves, per claim, the stated
properties.  Machine words are modelled as `Nat` reduced modulo `2 ^ 32`
where the source relies on 32-bit arithmetic (the MD5 cache key); Python
floats are modelled as `ℚ`; fallible code returns `Except`/`Option`.
External-library calls (dipy, nibabel, numpy aggregates) enter the model
as explicit parameters, while everything the scripts themselves compute
is translated operation by operation.
-/

set_option autoImplicit false
set_option maxRecDepth 40000

namespace Scilpy

/-- Exceptions a script run can surface: `ValueError` raised by the script
itself, `NameError` from Python's global-name resolution, usage errors
from `parser.error`, and exceptions escaping an external library call. -/
inductive PyErr where
  | valueError (msg : String)
  | nameError (name : String)
  | usageError (msg : String)
  | libraryError (msg : String)
  deriving DecidableEq, Repr

/-! ## MD5 (model of Python's `hashlib.md5(...).hexdigest()`)

`load_data_tmp_saving` keys its cache files by
`hashlib.md5(filename.encode()).hexdigest()`.  The MD5 digest is
reimplemented here over byte lists, words being `Nat` values kept below
`2 ^ 32`.  `strBytes` models `str.encode()` for ASCII path strings
(each character is one byte, its code point). -/

/-- `2 ^ 32`, the word modulus of MD5 arithmetic. -/
def w32 : Nat := 4294967296

/-- 32-bit modular addition. -/
def add32 (a b : Nat) : Nat := (a + b) % w32

/-- 32-bit bitwise complement. -/
def not32 (x : Nat) : Nat := Nat.xor x 4294967295

/-- 32-bit left rotation (for `x < 2 ^ 32`, `s ≤ 32`). -/
def rotl32 (x s : Nat) : Nat := ((x <<< s) % w32) ||| (x >>> (32 - s))

/-- The 64 MD5 sine-derived round constants (RFC 1321). -/
def md5K : List Nat :=
  [0xd76aa478, 0xe8c7b756, 0x242070db, 0xc1bdceee,
   0xf57c0faf, 0x4787c62a, 0xa8304613, 0xfd469501,
   0x698098d8, 0x8b44f7af, 0xffff5bb1, 0x895cd7be,
   0x6b901122, 0xfd987193, 0xa679438e, 0x49b40821,
   0xf61e2562, 0xc040b340, 0x265e5a51, 0xe9b6c7aa,
   0xd62f105d, 0x02441453, 0xd8a1e681, 0xe7d3fbc8,
   0x21e1cde6, 0xc33707d6, 0xf4d50d87, 0x455a14ed,
   0xa9e3e905, 0xfcefa3f8, 0x676f02d9, 0x8d2a4c8a,
   0xfffa3942, 0x8771f681, 0x6d9d6122, 0xfde5380c,
   0xa4beea44, 0x4bdecfa9, 0xf6bb4b60, 0xbebfbc70,
   0x289b7ec6, 0xeaa127fa, 0xd4ef3085, 0x04881d05,
   0xd9d4d039, 0xe6db99e5, 0x1fa27cf8, 0xc4ac5665,
   0xf4292244, 0x432aff97, 0xab9423a7, 0xfc93a039,
   0x655b59c3, 0x8f0ccc92, 0xffeff47d, 0x85845dd1,
   0x6fa87e4f, 0xfe2ce6e0, 0xa3014314, 0x4e0811a1,
   0xf7537e82, 0xbd3af235, 0x2ad7d2bb, 0xeb86d391]

/-- The 64 per-round left-rotation amounts of MD5. -/
def md5S : List Nat :=
  [7, 12, 17, 22, 7, 12, 17, 22, 7, 12, 17, 22, 7, 12, 17, 22,
   5, 9, 14, 20, 5, 9, 14, 20, 5, 9, 14, 20, 5, 9, 14, 20,
   4, 11, 16, 23, 4, 11, 16, 23, 4, 11, 16, 23, 4, 11, 16, 23,
   6, 10, 15, 21, 6, 10, 15, 21, 6, 10, 15, 21, 6, 10, 15, 21]

/-- The round-dependent MD5 mixing function (F, G, H, I). -/
def md5f (i b c d : Nat) : Nat :=
  if i < 16 then (b &&& c) ||| (not32 b &&& d)
  else if i < 32 then (d &&& b) ||| (not32 d &&& c)
  else if i < 48 then Nat.xor (Nat.xor b c) d
  else Nat.xor c (b ||| not32 d)

/-- The round-dependent message-word index of MD5. -/
def md5g (i : Nat) : Nat :=
  if i < 16 then i
  else if i < 32 then (5 * i + 1) % 16
  else if i < 48 then (3 * i + 5) % 16
  else (7 * i) % 16

/-- One MD5 round on the state `(a, b, c, d)` with message words `m`. -/
def md5Round (m : List Nat) (st : Nat × Nat × Nat × Nat) (i : Nat) :
    Nat × Nat × Nat × Nat :=
  let a := st.1; let b := st.2.1; let c := st.2.2.1; let d := st.2.2.2
  let f := add32 (add32 (add32 (md5f i b c d) a) (md5K.getD i 0))
                 (m.getD (md5g i) 0)
  (d, add32 b (rotl32 f (md5S.getD i 0)), b, c)

/-- Group a byte list into little-endian 32-bit words. -/
def wordsOfBytes : List Nat → List Nat
  | b0 :: b1 :: b2 :: b3 :: rest =>
      (b0 + 256 * b1 + 65536 * b2 + 16777216 * b3) :: wordsOfBytes rest
  | _ => []

/-- Process one 64-byte block, updating the MD5 state. -/
def md5ProcessBlock (st : Nat × Nat × Nat × Nat) (block : List Nat) :
    Nat × Nat × Nat × Nat :=
  let m := wordsOfBytes block
  let r := (List.range 64).foldl (md5Round m) st
  (add32 st.1 r.1, add32 st.2.1 r.2.1, add32 st.2.2.1 r.2.2.1,
   add32 st.2.2.2 r.2.2.2)

/-- Process `n` consecutive 64-byte blocks of a padded message. -/
def md5Blocks : Nat → (Nat × Nat × Nat × Nat) → List Nat →
    Nat × Nat × Nat × Nat
  | 0, st, _ => st
  | n + 1, st, l => md5Blocks n (md5ProcessBlock st (l.take 64)) (l.drop 64)

/-- The eight little-endian bytes of the 64-bit message bit length. -/
def lengthBytes (bits : Nat) : List Nat :=
  (List.range 8).map (fun i => (bits >>> (8 * i)) % 256)

/-- MD5 padding: a `0x80` byte, zeros to 56 mod 64, then the bit length. -/
def md5Pad (msg : List Nat) : List Nat :=
  let k := (120 - (msg.length + 1) % 64) % 64
  msg ++ [128] ++ List.replicate k 0 ++ lengthBytes (8 * msg.length)

/-- The four little-endian bytes of a 32-bit word. -/
def wordBytes (x : Nat) : List Nat :=
  [x % 256, (x >>> 8) % 256, (x >>> 16) % 256, (x >>> 24) % 256]

/-- The 16-byte MD5 digest of a byte-list message. -/
def md5Bytes (msg : List Nat) : List Nat :=
  let padded := md5Pad msg
  let r := md5Blocks (padded.length / 64)
    (0x67452301, 0xefcdab89, 0x98badcfe, 0x10325476) padded
  wordBytes r.1 ++ wordBytes r.2.1 ++ wordBytes r.2.2.1 ++ wordBytes r.2.2.2

/-- Lower-case hex digit of a value below 16. -/
def hexChar (n : Nat) : Char :=
  if n < 10 then Char.ofNat (48 + n) else Char.ofNat (87 + n)

/-- Two lower-case hex digits of a byte. -/
def byteHex (b : Nat) : List Char := [hexChar (b / 16), hexChar (b % 16)]

/-- Lower-case hex string of a byte-list digest. -/
def md5hexOfBytes (msg : List Nat) : String :=
  ⟨(md5Bytes msg).foldr (fun b acc => byteHex b ++ acc) []⟩

/-- `str.encode()` for an ASCII string: one byte per character. -/
def strBytes (s : String) : List Nat := s.data.map Char.toNat

/-- Model of `hashlib.md5(s.encode()).hexdigest()` for ASCII `s`. -/
def md5hex (s : String) : String := md5hexOfBytes (strBytes s)

/-- Check of the model against RFC 1321's first test vector:
`MD5("") = d41d8cd98f00b204e9800998ecf8427e`. -/
theorem md5hex_empty_vector :
    md5hex "" = "d41d8cd98f00b204e9800998ecf8427e" := by decide

/-- Check of the model against `hashlib.md5(b"a.trk").hexdigest()`. -/
theorem md5hex_a_trk_vector :
    md5hex "a.trk" = "4b0dc85676656e2573590a30b30d87dd" := by decide

namespace BundleSim

/-!
## scripts/scil_summarize_bundles_similarity_measures.py

### Cache-key computation of `load_data_tmp_saving` (lines 76-91)

The filesystem is modelled as a map from paths to the byte content
stored there (`none` when `os.path.isfile` is false).  Lines 85-91
derive the three temporary file names from
`hashlib.md5(filename.encode()).hexdigest()` alone; the bytes stored at
`filename` never enter the computation.
-/

/-- A filesystem state: the byte content at each path, if a file exists
there. -/
def FileSystem : Type := String → Option (List Nat)

/-- Line 85: `hash_tmp = hashlib.md5(filename.encode()).hexdigest()`. -/
def hash_tmp (filename : String) : String := md5hex filename

/-- Lines 86-87: `os.path.join('tmp_measures/', '{0}_density.nii.gz')`. -/
def tmp_density_filename (filename : String) : String :=
  "tmp_measures/" ++ hash_tmp filename ++ "_density.nii.gz"

/-- Lines 88-89: the endpoints-density cache file name. -/
def tmp_endpoints_filename (filename : String) : String :=
  "tmp_measures/" ++ hash_tmp filename ++ "_endpoints.nii.gz"

/-- Lines 90-91: the centroids cache file name. -/
def tmp_centroids_filename (filename : String) : String :=
  "tmp_measures/" ++ hash_tmp filename ++ "_centroids.trk"

/-- Lines 80-91 of `load_data_tmp_saving`: `none` when
`os.path.isfile(filename)` fails (the early `return None`), otherwise
the three cache file names the function proceeds to use. -/
def load_data_tmp_saving_cache_names (fs : FileSystem) (filename : String) :
    Option (String × String × String) :=
  match fs filename with
  | none => none
  | some _ =>
      some (tmp_density_filename filename,
            tmp_endpoints_filename filename,
            tmp_centroids_filename filename)

/-- A filesystem holding the same bytes at two distinct paths. -/
def fsSameContent : FileSystem := fun p =>
  if p = "bundle_1.trk" ∨ p = "bundle_2.trk" then some [0, 1, 2] else none

/-- A filesystem holding different bytes at `bundle_1.trk`. -/
def fsChangedContent : FileSystem := fun p =>
  if p = "bundle_1.trk" ∨ p = "bundle_2.trk" then some [7, 7, 7] else none

/-- C2: the claim is false as stated.  Two input files with identical
content (`fsSameContent` stores the same bytes at both paths) do not
share a cache entry: the cache file names computed by
`load_data_tmp_saving` for the two paths differ, because the key is
`md5(filename.encode())`, a hash of the path string and not of the
content. -/
theorem C2_counterexample :
    fsSameContent "bundle_1.trk" = fsSameContent "bundle_2.trk" ∧
    load_data_tmp_saving_cache_names fsSameContent "bundle_1.trk" ≠
      load_data_tmp_saving_cache_names fsSameContent "bundle_2.trk" := by
  constructor
  · rfl
  · decide

/-- C2 (amended): the cache entries are keyed by the MD5 hash of each
input's path string, not of its content: for any two filesystem states
in which the input path exists, `load_data_tmp_saving` computes the
same three cache file names — so a file whose content changes under the
same path keeps its cache entry, and the names are exactly
`tmp_measures/<md5(path)>_{density.nii.gz, endpoints.nii.gz,
centroids.trk}`. -/
theorem C2_cache_key_is_path_hash (fs fs' : FileSystem) (filename : String)
    (h : (fs filename).isSome) (h' : (fs' filename).isSome) :
    load_data_tmp_saving_cache_names fs filename =
      load_data_tmp_saving_cache_names fs' filename ∧
    load_data_tmp_saving_cache_names fs filename =
      some ("tmp_measures/" ++ md5hex filename ++ "_density.nii.gz",
            "tmp_measures/" ++ md5hex filename ++ "_endpoints.nii.gz",
            "tmp_measures/" ++ md5hex filename ++ "_centroids.trk") := by
  unfold load_data_tmp_saving_cache_names
  rcases hfs : fs filename with _ | c
  · rw [hfs] at h; simp at h
  · rcases hfs' : fs' filename with _ | c'
    · rw [hfs'] at h'; simp at h'
    · exact ⟨rfl, rfl⟩

/-- Witness for the amended C2: the same path (`bundle_1.trk`) under two
filesystem states with different stored bytes yields identical cache
file names. -/
theorem C2_cache_key_is_path_hash_witness :
    load_data_tmp_saving_cache_names fsSameContent "bundle_1.trk" =
      load_data_tmp_saving_cache_names fsChangedContent "bundle_1.trk" ∧
    load_data_tmp_saving_cache_names fsSameContent "bundle_1.trk" =
      some ("tmp_measures/" ++ md5hex "bundle_1.trk" ++ "_density.nii.gz",
            "tmp_measures/" ++ md5hex "bundle_1.trk" ++ "_endpoints.nii.gz",
            "tmp_measures/" ++ md5hex "bundle_1.trk" ++ "_centroids.trk") :=
  C2_cache_key_is_path_hash fsSameContent fsChangedContent "bundle_1.trk"
    (by decide) (by decide)

/-!
### Pair construction in `main` (lines 277-301)

Without `--single_compare`, `comb_dict_keys =
itertools.combinations(bundles_references_tuple, r=2)` (line 300).
With `--single_compare`, the file is removed from `in_bundles`
(`list.remove`, i.e. first occurrence) when present, appended last,
linked, popped back off, and `itertools.product` pairs every remaining
tuple with it (lines 277-287).  `link_bundles_and_reference`
(scilpy.io.utils, not under src/) maps the file list one-to-one to
`(filename, reference)` tuples, so the pairing is modelled directly on
the list elements, of an arbitrary type `α`. -/

/-- `itertools.combinations(l, 2)`: the pairs `(l[i], l[j])` for
`i < j`, in lexicographic index order. -/
def combinations2 {α : Type} : List α → List (α × α)
  | [] => []
  | x :: xs => xs.map (fun y => (x, y)) ++ combinations2 xs

/-- Line 300: `comb_dict_keys` without `--single_compare`. -/
def comb_dict_keys_no_single {α : Type} (bundles : List α) : List (α × α) :=
  combinations2 bundles

/-- Lines 277-287: `comb_dict_keys` with `--single_compare`.
`list.remove` drops the first occurrence, which `List.erase` models;
the `pop` of the extended list returns its last element, namely the
single-compare entry itself. -/
def comb_dict_keys_single {α : Type} [DecidableEq α]
    (in_bundles : List α) (single_compare : α) : List (α × α) :=
  let in_bundles' :=
    if single_compare ∈ in_bundles then in_bundles.erase single_compare
    else in_bundles
  let bundles_list := in_bundles' ++ [single_compare]
  let single_tuple := bundles_list.getLastD single_compare
  bundles_list.dropLast.map (fun b => (b, single_tuple))

theorem mem_combinations2 {α : Type} {p : α × α} :
    ∀ {l : List α}, p ∈ combinations2 l → p.1 ∈ l ∧ p.2 ∈ l := by
  intro l
  induction l with
  | nil => intro h; simp [combinations2] at h
  | cons x xs ih =>
    intro h
    simp only [combinations2, List.mem_append, List.mem_map] at h
    rcases h with ⟨y, hy, rfl⟩ | h
    · exact ⟨List.mem_cons_self x xs, List.mem_cons_of_mem x hy⟩
    · exact ⟨List.mem_cons_of_mem x (ih h).1, List.mem_cons_of_mem x (ih h).2⟩

theorem combinations2_length_mul {α : Type} (l : List α) :
    2 * (combinations2 l).length = l.length * (l.length - 1) := by
  induction l with
  | nil => rfl
  | cons x xs ih =>
    simp only [combinations2, List.length_append, List.length_map,
      List.length_cons]
    cases hn : xs.length with
    | zero => rw [hn] at ih; omega
    | succ m =>
      rw [hn] at ih
      simp only [Nat.add_sub_cancel] at ih ⊢
      nlinarith [ih]

theorem count_pair_map {α : Type} [DecidableEq α] (x a b : α) (xs : List α) :
    ((xs.map fun y => (x, y)).count (a, b)) = if a = x then xs.count b else 0 := by
  induction xs with
  | nil => simp
  | cons z zs ih =>
    simp only [List.map_cons, List.count_cons, ih, List.count_cons,
      Prod.mk.injEq]
    by_cases hax : a = x
    · subst hax
      by_cases hbz : b = z
      · subst hbz; simp
      · simp [hbz, fun h : z = b => hbz h.symm]
    · have hne : (x, z) ≠ (a, b) := fun h => hax (congrArg Prod.fst h).symm
      simp [hax, hne]

theorem count_pair_map_snd {α : Type} [DecidableEq α] (c b d : α) (xs : List α) :
    ((xs.map fun y => (y, c)).count (b, d)) = if d = c then xs.count b else 0 := by
  induction xs with
  | nil => simp
  | cons z zs ih =>
    simp only [List.map_cons, List.count_cons, ih]
    by_cases hdc : d = c
    · subst hdc
      by_cases hbz : b = z
      · subst hbz; simp
      · have hne : (z, d) ≠ (b, d) := fun h => hbz (congrArg Prod.fst h).symm
        have hzb : ¬ z = b := fun h => hbz h.symm
        simp [hbz, hne, hzb]
    · have hne : (z, c) ≠ (b, d) := fun h => hdc (congrArg Prod.snd h).symm
      simp [hdc, hne]

theorem count_combinations2_cons {α : Type} [DecidableEq α]
    (a b x : α) (xs : List α) :
    (combinations2 (x :: xs)).count (a, b)
      = (if a = x then xs.count b else 0) + (combinations2 xs).count (a, b) := by
  simp [combinations2, List.count_append, count_pair_map]

theorem count_combinations2_of_ne {α : Type} [DecidableEq α] {l : List α}
    (hnd : l.Nodup) {a b : α} (ha : a ∈ l) (hb : b ∈ l) (hab : a ≠ b) :
    (combinations2 l).count (a, b) + (combinations2 l).count (b, a) = 1 := by
  induction l with
  | nil => simp at ha
  | cons x xs ih =>
    have hnd' : xs.Nodup := hnd.of_cons
    have hx : x ∉ xs := (List.nodup_cons.mp hnd).1
    rw [count_combinations2_cons, count_combinations2_cons]
    rcases List.mem_cons.mp ha with rfl | ha'
    · have hb' : b ∈ xs := by
        rcases List.mem_cons.mp hb with rfl | h
        · exact absurd rfl hab
        · exact h
      have c1 : xs.count b = 1 := List.count_eq_one_of_mem hnd' hb'
      have c2 : (combinations2 xs).count (a, b) = 0 := by
        rw [List.count_eq_zero]; intro hmem; exact hx (mem_combinations2 hmem).1
      have c3 : (combinations2 xs).count (b, a) = 0 := by
        rw [List.count_eq_zero]; intro hmem; exact hx (mem_combinations2 hmem).2
      simp [c1, c2, c3, Ne.symm hab]
    · rcases List.mem_cons.mp hb with rfl | hb'
      · have c1 : xs.count a = 1 := List.count_eq_one_of_mem hnd' ha'
        have c2 : (combinations2 xs).count (a, b) = 0 := by
          rw [List.count_eq_zero]; intro hmem
          exact hx (mem_combinations2 hmem).2
        have c3 : (combinations2 xs).count (b, a) = 0 := by
          rw [List.count_eq_zero]; intro hmem
          exact hx (mem_combinations2 hmem).1
        simp [c1, c2, c3, hab]
      · have hax : a ≠ x := fun h => hx (h ▸ ha')
        have hbx : b ≠ x := fun h => hx (h ▸ hb')
        simp only [hax, hbx, if_neg, ite_false]
        simpa using ih hnd' ha' hb'

theorem count_combinations2_self {α : Type} [DecidableEq α] {l : List α}
    (hnd : l.Nodup) (a : α) : (combinations2 l).count (a, a) = 0 := by
  induction l with
  | nil => rfl
  | cons x xs ih =>
    have hx : x ∉ xs := (List.nodup_cons.mp hnd).1
    rw [count_combinations2_cons]
    by_cases hax : a = x
    · subst hax
      simp [List.count_eq_zero.mpr hx, ih hnd.of_cons]
    · simp [hax, ih hnd.of_cons]

theorem comb_dict_keys_single_eq {α : Type} [DecidableEq α]
    (in_bundles : List α) (sc : α) :
    comb_dict_keys_single in_bundles sc
      = (if sc ∈ in_bundles then in_bundles.erase sc else in_bundles).map
          (fun b => (b, sc)) := by
  unfold comb_dict_keys_single
  simp [List.dropLast_concat, List.getLastD_concat]

/-- C1: for distinct input bundles, without `--single_compare` the
comparison list enumerates exactly the `n*(n-1)/2` unordered pairs of
distinct inputs — each unordered pair of distinct inputs occurs exactly
once, no pair `(a, a)` occurs, and only inputs occur; with
`--single_compare`, it holds exactly one comparison per input other
than the single-compare file, each pairing that input with the
single-compare file. -/
theorem C1_pair_enumeration {α : Type} [DecidableEq α]
    (bundles : List α) (sc : α) (hnd : bundles.Nodup) :
    ((comb_dict_keys_no_single bundles).length
        = bundles.length * (bundles.length - 1) / 2)
    ∧ (∀ a b : α, a ∈ bundles → b ∈ bundles → a ≠ b →
        (comb_dict_keys_no_single bundles).count (a, b)
          + (comb_dict_keys_no_single bundles).count (b, a) = 1)
    ∧ (∀ a : α, (comb_dict_keys_no_single bundles).count (a, a) = 0)
    ∧ (∀ p ∈ comb_dict_keys_no_single bundles, p.1 ∈ bundles ∧ p.2 ∈ bundles)
    ∧ ((comb_dict_keys_single bundles sc).length
        = if sc ∈ bundles then bundles.length - 1 else bundles.length)
    ∧ (∀ b : α, (comb_dict_keys_single bundles sc).count (b, sc)
        = if b ∈ bundles ∧ b ≠ sc then 1 else 0)
    ∧ (∀ p ∈ comb_dict_keys_single bundles sc,
        p.2 = sc ∧ p.1 ∈ bundles ∧ p.1 ≠ sc) := by
  have hmul := combinations2_length_mul bundles
  refine ⟨by unfold comb_dict_keys_no_single; omega, ?_, ?_, ?_, ?_, ?_, ?_⟩
  · intro a b ha hb hab
    exact count_combinations2_of_ne hnd ha hb hab
  · intro a
    exact count_combinations2_self hnd a
  · intro p hp
    exact mem_combinations2 hp
  · rw [comb_dict_keys_single_eq, List.length_map]
    by_cases hsc : sc ∈ bundles
    · simp [hsc, List.length_erase_of_mem hsc]
    · simp [hsc]
  · intro b
    rw [comb_dict_keys_single_eq, count_pair_map_snd]
    by_cases hsc : sc ∈ bundles
    · simp only [hsc, if_true, ite_true]
      by_cases hbsc : b = sc
      · subst hbsc
        have : b ∉ bundles.erase b := fun h => ((hnd.mem_erase_iff).mp h).1 rfl
        simp [List.count_eq_zero.mpr this]
      · rw [List.count_erase_of_ne hbsc]
        by_cases hb : b ∈ bundles
        · simp [hb, hbsc, List.count_eq_one_of_mem hnd hb]
        · simp [hb, List.count_eq_zero.mpr hb]
    · simp only [hsc, if_false, ite_false]
      by_cases hb : b ∈ bundles
      · have hbsc : b ≠ sc := fun h => hsc (h ▸ hb)
        simp [hb, hbsc, List.count_eq_one_of_mem hnd hb]
      · simp [hb, List.count_eq_zero.mpr hb]
  · intro p hp
    rw [comb_dict_keys_single_eq] at hp
    rcases List.mem_map.mp hp with ⟨b, hbmem, rfl⟩
    by_cases hsc : sc ∈ bundles
    · rw [if_pos hsc] at hbmem
      have := (hnd.mem_erase_iff).mp hbmem
      exact ⟨rfl, this.2, this.1⟩
    · rw [if_neg hsc] at hbmem
      exact ⟨rfl, hbmem, fun h => hsc (h ▸ hbmem)⟩

/-- Witness for C1 at the concrete inputs `[0, 1, 2]` with
single-compare file `2`. -/
theorem C1_pair_enumeration_witness :
    ([0, 1, 2] : List ℕ).Nodup ∧
    (((comb_dict_keys_no_single ([0, 1, 2] : List ℕ)).length = 3 * (3 - 1) / 2)
     ∧ (∀ a b : ℕ, a ∈ ([0, 1, 2] : List ℕ) → b ∈ ([0, 1, 2] : List ℕ) →
          a ≠ b →
          (comb_dict_keys_no_single ([0, 1, 2] : List ℕ)).count (a, b)
            + (comb_dict_keys_no_single ([0, 1, 2] : List ℕ)).count (b, a) = 1)
     ∧ (∀ a : ℕ, (comb_dict_keys_no_single ([0, 1, 2] : List ℕ)).count (a, a) = 0)
     ∧ (∀ p ∈ comb_dict_keys_no_single ([0, 1, 2] : List ℕ),
          p.1 ∈ ([0, 1, 2] : List ℕ) ∧ p.2 ∈ ([0, 1, 2] : List ℕ))
     ∧ ((comb_dict_keys_single ([0, 1, 2] : List ℕ) 2).length
          = if 2 ∈ ([0, 1, 2] : List ℕ) then 3 - 1 else 3)
     ∧ (∀ b : ℕ, (comb_dict_keys_single ([0, 1, 2] : List ℕ) 2).count (b, 2)
          = if b ∈ ([0, 1, 2] : List ℕ) ∧ b ≠ 2 then 1 else 0)
     ∧ (∀ p ∈ comb_dict_keys_single ([0, 1, 2] : List ℕ) 2,
          p.2 = 2 ∧ p.1 ∈ ([0, 1, 2] : List ℕ) ∧ p.1 ≠ 2)) :=
  ⟨by decide, C1_pair_enumeration [0, 1, 2] 2 (by decide)⟩

/-!
### Process-count validation in `main` (lines 265-275)

`nbr_cpu = args.processes if args.processes else multiprocessing.cpu_count()`
uses Python truthiness: the value `0` is falsy, exactly like the absent
option `None`, so `--processes 0` silently becomes `cpu_count()`.
On a bad count `parser.error` exits with a usage error; otherwise
`os.mkdir('tmp_measures/')` and `multiprocessing.Pool(nbr_cpu)` follow. -/

/-- State-changing actions of the `main` prefix after the count checks. -/
inductive SetupAction where
  | mkdir_tmp_measures
  | create_pool (nbr_cpu : Int)
  deriving DecidableEq, Repr

/-- Lines 265-275: resolve `nbr_cpu`, run the two `parser.error` checks,
then create `tmp_measures/` and the worker pool.  `.error` is the
argument-parser usage error (which exits before any action);
`.ok` lists the actions taken. -/
def main_setup (processes : Option Int) (cpu_count : Int) :
    Except String (List SetupAction) :=
  let nbr_cpu := match processes with
    | some p => if p ≠ 0 then p else cpu_count
    | none => cpu_count
  if nbr_cpu ≤ 0 then .error "Number of processes cannot be <= 0."
  else if nbr_cpu > cpu_count then
    .error ("Max number of processes is " ++ toString cpu_count ++ ". Got "
            ++ toString nbr_cpu ++ ".")
  else .ok [.mkdir_tmp_measures, .create_pool nbr_cpu]

/-- C9 fails as stated: `--processes 0` is a value less than or equal to
`0`, yet on a 4-CPU machine the script raises no usage error — `0` is
falsy in Python, so `nbr_cpu` silently becomes `cpu_count()` and the
tmp directory and the worker pool are both created. -/
theorem C9_counterexample :
    (0 : Int) ≤ 0 ∧
    main_setup (some 0) 4
      = .ok [.mkdir_tmp_measures, .create_pool 4] := by
  constructor
  · decide
  · rfl

/-- C9 (amended): a negative `--processes` value, or one above the CPU
count, exits with an argument-parser usage error before the worker pool
or `tmp_measures/` is created (the error result carries no actions);
`--processes 0`, however, is treated like an absent option and the
machine's CPU count is used; a value in `1..cpu_count` proceeds to
create `tmp_measures/` and the pool. -/
theorem C9_processes_validation (p cpu_count : Int) :
    (p < 0 →
      main_setup (some p) cpu_count
        = .error "Number of processes cannot be <= 0.")
    ∧ (0 < cpu_count → cpu_count < p →
      main_setup (some p) cpu_count
        = .error ("Max number of processes is " ++ toString cpu_count
                  ++ ". Got " ++ toString p ++ "."))
    ∧ main_setup (some 0) cpu_count = main_setup none cpu_count
    ∧ (0 < p → p ≤ cpu_count →
      main_setup (some p) cpu_count
        = .ok [.mkdir_tmp_measures, .create_pool p]) := by
  refine ⟨?_, ?_, ?_, ?_⟩
  · intro hp
    have hne : p ≠ 0 := fun h => by omega
    simp [main_setup, hne, (show p ≤ 0 by omega)]
  · intro hcpu hlt
    have hne : p ≠ 0 := fun h => by omega
    simp [main_setup, hne, (show ¬ p ≤ 0 by omega), hlt]
  · simp [main_setup]
  · intro hp hle
    have hne : p ≠ 0 := fun h => by omega
    simp [main_setup, hne, (show ¬ p ≤ 0 by omega), (show ¬ cpu_count < p by omega)]

/-- Witness for the amended C9: `--processes -1` and `--processes 9`
usage-error on a 4-CPU machine, `--processes 0` behaves as unset, and
`--processes 3` creates the directory and the pool. -/
theorem C9_processes_validation_witness :
    main_setup (some (-1)) 4 = .error "Number of processes cannot be <= 0."
    ∧ main_setup (some 9) 4
        = .error ("Max number of processes is " ++ toString (4 : Int)
                  ++ ". Got " ++ toString (9 : Int) ++ ".")
    ∧ main_setup (some 0) 4 = main_setup none 4
    ∧ main_setup (some 3) 4 = .ok [.mkdir_tmp_measures, .create_pool 3] :=
  ⟨(C9_processes_validation (-1) 4).1 (by decide),
   (C9_processes_validation 9 4).2.1 (by decide) (by decide),
   (C9_processes_validation 9 4).2.2.1,
   (C9_processes_validation 3 4).2.2.2 (by decide) (by decide)⟩

/-!
### `compute_all_measures` and the `main` output (lines 141-255, 303-322)

References and loaded bundle data are abstract types `Ref` and `δ`;
measure values are an abstract type `V`.  The external behavior entering
`compute_all_measures` — dipy's `is_header_compatible`, the outcome of
`load_data_tmp_saving` (its data tuple, `None` for a missing or empty
input, or a raised library exception), and the numeric measure
computations (scilpy.tractanalysis and numpy, not under src/) — is a
parameter record `Externals`; the script's own control flow and dict
construction are translated directly. -/

/-- The external calls `compute_all_measures` depends on.
`load_data_tmp_saving` stands for the observable outcome of that call
(lines 152-168): loaded data, `none` for a missing or empty bundle, or
a propagated library exception; `bundle_adjacency_streamlines` and
`bundle_adjacency_streamlines_centroids` are its two call forms of
lines 190-201 (without and with precomputed centroids). -/
structure Externals (Ref δ V : Type) where
  is_header_compatible : Ref → Ref → Bool
  load_data_tmp_saving : String → Ref → Except PyErr (Option δ)
  compute_bundle_adjacency_voxel : δ → δ → V
  dice_vox : δ → δ → V
  w_dice_vox : δ → δ → V
  volume_overlap_mm3 : δ → δ → V
  volume_overreach_mm3 : δ → δ → V
  dice_vox_endpoints : δ → δ → V
  w_dice_vox_endpoints : δ → δ → V
  volume_overlap_endpoints_mm3 : δ → δ → V
  volume_overreach_endpoints_mm3 : δ → δ → V
  density_correlation : δ → δ → V
  density_correlation_endpoints : δ → δ → V
  bundle_adjacency_streamlines : δ → δ → V
  bundle_adjacency_streamlines_centroids : δ → δ → V
  dice_streamlines : δ → δ → V
  streamlines_count_overlap : δ → δ → V
  streamlines_count_overreach : δ → δ → V

/-- Lines 216-255: the per-comparison measure dict, in insertion order —
the 11 base measures, then `bundle_adjacency_streamlines` unless
`--disable_streamline_distance`, then the three streamline-dice
measures when `--streamline_dice`. -/
def measures_dict {Ref δ V : Type} (E : Externals Ref δ V) (d1 d2 : δ)
    (streamline_dice disable_streamline_distance : Bool) :
    List (String × V) :=
  [("bundle_adjacency_voxels", E.compute_bundle_adjacency_voxel d1 d2),
   ("dice_voxels", E.dice_vox d1 d2),
   ("w_dice_voxels", E.w_dice_vox d1 d2),
   ("volume_overlap", E.volume_overlap_mm3 d1 d2),
   ("volume_overreach", E.volume_overreach_mm3 d1 d2),
   ("dice_voxels_endpoints", E.dice_vox_endpoints d1 d2),
   ("w_dice_voxels_endpoints", E.w_dice_vox_endpoints d1 d2),
   ("volume_overlap_endpoints", E.volume_overlap_endpoints_mm3 d1 d2),
   ("volume_overreach_endpoints", E.volume_overreach_endpoints_mm3 d1 d2),
   ("density_correlation", E.density_correlation d1 d2),
   ("density_correlation_endpoints", E.density_correlation_endpoints d1 d2)]
  ++ (if disable_streamline_distance then []
      else
        [("bundle_adjacency_streamlines",
          if streamline_dice then E.bundle_adjacency_streamlines d1 d2
          else E.bundle_adjacency_streamlines_centroids d1 d2)])
  ++ (if streamline_dice then
        [("dice_streamlines", E.dice_streamlines d1 d2),
         ("streamlines_count_overlap", E.streamlines_count_overlap d1 d2),
         ("streamlines_count_overreach", E.streamlines_count_overreach d1 d2)]
      else [])

/-- Lines 141-255: `compute_all_measures` for one pair.  The first
component is its outcome (`.error` for a raised exception, `.ok none`
for the empty-bundle early `return None`, `.ok (some dict)` for a
result); the second lists the filenames passed to
`load_data_tmp_saving`, in call order, recording what was loaded before
any raise. -/
def compute_all_measures {Ref δ V : Type} (E : Externals Ref δ V)
    (pair : (String × Ref) × (String × Ref))
    (streamline_dice disable_streamline_distance : Bool) :
    (Except PyErr (Option (List (String × V)))) × List String :=
  let filename_1 := pair.1.1
  let reference_1 := pair.1.2
  let filename_2 := pair.2.1
  let reference_2 := pair.2.2
  if ¬ E.is_header_compatible reference_1 reference_2 then
    (.error (.valueError
      (filename_1 ++ " and " ++ filename_2 ++ " have incompatible headers")),
     [])
  else
    match E.load_data_tmp_saving filename_1 reference_1 with
    | .error e => (.error e, [filename_1])
    | .ok none => (.ok none, [filename_1])
    | .ok (some d1) =>
      match E.load_data_tmp_saving filename_2 reference_2 with
      | .error e => (.error e, [filename_1, filename_2])
      | .ok none => (.ok none, [filename_1, filename_2])
      | .ok (some d2) =>
        (.ok (some (measures_dict E d1 d2 streamline_dice
                      disable_streamline_distance)),
         [filename_1, filename_2])

/-- `pool.map` (line 303): applies `f` to every element; any exception
raised in a worker propagates when the results are collected, so the
result is `.error` as soon as any element raises. -/
def pool_map {α β : Type} (f : α → Except PyErr β) :
    List α → Except PyErr (List β)
  | [] => .ok []
  | a :: l =>
    match f a with
    | .error e => .error e
    | .ok b =>
      match pool_map f l with
      | .error e => .error e
      | .ok bs => .ok (b :: bs)

/-- Lines 303-306: `all_measures_dict = pool.map(compute_all_measures, ...)`. -/
def main_compute {Ref δ V : Type} (E : Externals Ref δ V)
    (pairs : List ((String × Ref) × (String × Ref)))
    (streamline_dice disable_streamline_distance : Bool) :
    Except PyErr (List (Option (List (String × V)))) :=
  pool_map (fun p =>
    (compute_all_measures E p streamline_dice disable_streamline_distance).1)
    pairs

/-- Lines 314-319: one iteration of the output loop — create an empty
list for a new measure name, then append the value.  Python dicts keep
insertion order, modelled by an association list. -/
def add_measure {V : Type} (acc : List (String × List V)) (k : String)
    (v : V) : List (String × List V) :=
  if k ∈ acc.map Prod.fst then
    acc.map (fun kv => if kv.1 = k then (kv.1, kv.2 ++ [v]) else kv)
  else acc ++ [(k, [v])]

/-- Lines 310-319: the output loop over `all_measures_dict`, skipping
`None` results ("Empty bundle should not make the script crash"). -/
def aggregate {V : Type} (results : List (Option (List (String × V)))) :
    List (String × List V) :=
  results.foldl (fun acc r =>
    match r with
    | none => acc
    | some d => d.foldl (fun a kv => add_measure a kv.1 kv.2) acc) []

/-- Lines 303-322: the comparison phase plus the output write.  `.ok out`
means `json.dump(out)` runs on line 321-322; `.error` means an exception
reached `main` first and no output file is written. -/
def main_run {Ref δ V : Type} (E : Externals Ref δ V)
    (pairs : List ((String × Ref) × (String × Ref)))
    (streamline_dice disable_streamline_distance : Bool) :
    Except PyErr (List (String × List V)) :=
  (main_compute E pairs streamline_dice disable_streamline_distance).map
    aggregate

/-- The 11 base measure names, as the claim enumerates them
(`bundle_adjacency_voxels` through `density_correlation_endpoints`). -/
def base_measure_names : List String :=
  ["bundle_adjacency_voxels", "dice_voxels", "w_dice_voxels",
   "volume_overlap", "volume_overreach", "dice_voxels_endpoints",
   "w_dice_voxels_endpoints", "volume_overlap_endpoints",
   "volume_overreach_endpoints", "density_correlation",
   "density_correlation_endpoints"]

/-- The claim's measure set: the 11 base names, plus
`bundle_adjacency_streamlines` iff `--disable_streamline_distance` is
not set, plus the three streamline-dice names iff `--streamline_dice`
is set. -/
def measure_names_spec (streamline_dice disable_streamline_distance : Bool) :
    List String :=
  base_measure_names
  ++ (if disable_streamline_distance then []
      else ["bundle_adjacency_streamlines"])
  ++ (if streamline_dice then
        ["dice_streamlines", "streamlines_count_overlap",
         "streamlines_count_overreach"]
      else [])

/-- The value `measures_dict` stores under each measure name. -/
def measure_value {Ref δ V : Type} (E : Externals Ref δ V) (d1 d2 : δ)
    (streamline_dice : Bool) (n : String) : V :=
  if n = "bundle_adjacency_voxels" then E.compute_bundle_adjacency_voxel d1 d2
  else if n = "dice_voxels" then E.dice_vox d1 d2
  else if n = "w_dice_voxels" then E.w_dice_vox d1 d2
  else if n = "volume_overlap" then E.volume_overlap_mm3 d1 d2
  else if n = "volume_overreach" then E.volume_overreach_mm3 d1 d2
  else if n = "dice_voxels_endpoints" then E.dice_vox_endpoints d1 d2
  else if n = "w_dice_voxels_endpoints" then E.w_dice_vox_endpoints d1 d2
  else if n = "volume_overlap_endpoints" then
    E.volume_overlap_endpoints_mm3 d1 d2
  else if n = "volume_overreach_endpoints" then
    E.volume_overreach_endpoints_mm3 d1 d2
  else if n = "density_correlation" then E.density_correlation d1 d2
  else if n = "density_correlation_endpoints" then
    E.density_correlation_endpoints d1 d2
  else if n = "bundle_adjacency_streamlines" then
    (if streamline_dice then E.bundle_adjacency_streamlines d1 d2
     else E.bundle_adjacency_streamlines_centroids d1 d2)
  else if n = "dice_streamlines" then E.dice_streamlines d1 d2
  else if n = "streamlines_count_overlap" then
    E.streamlines_count_overlap d1 d2
  else E.streamlines_count_overreach d1 d2

theorem measure_names_spec_nodup (sd dsd : Bool) :
    (measure_names_spec sd dsd).Nodup := by
  cases sd <;> cases dsd <;> decide

theorem measures_dict_eq_map {Ref δ V : Type} (E : Externals Ref δ V)
    (d1 d2 : δ) (sd dsd : Bool) :
    measures_dict E d1 d2 sd dsd
      = (measure_names_spec sd dsd).map
          (fun n => (n, measure_value E d1 d2 sd n)) := by
  cases sd <;> cases dsd <;>
    simp [measures_dict, measure_names_spec, base_measure_names, measure_value]

theorem measures_dict_keys {Ref δ V : Type} (E : Externals Ref δ V)
    (d1 d2 : δ) (sd dsd : Bool) :
    (measures_dict E d1 d2 sd dsd).map Prod.fst = measure_names_spec sd dsd := by
  rw [measures_dict_eq_map, List.map_map]
  have h : ∀ n ∈ measure_names_spec sd dsd,
      (Prod.fst ∘ fun n => (n, measure_value E d1 d2 sd n)) n = id n :=
    fun n _ => rfl
  rw [List.map_congr_left h, List.map_id]

theorem add_measure_notin {V : Type} (acc : List (String × List V)) (k : String)
    (v : V) (hk : k ∉ acc.map Prod.fst) :
    add_measure acc k v = acc ++ [(k, [v])] := by
  simp [add_measure, hk]

theorem map_fst_names {V : Type} (names : List String) (g : String → List V) :
    (names.map (fun n => (n, g n))).map Prod.fst = names := by
  rw [List.map_map]
  have h : ∀ n ∈ names, (Prod.fst ∘ fun n => (n, g n)) n = id n := fun n _ => rfl
  rw [List.map_congr_left h, List.map_id]

theorem add_measure_in {V : Type} (names : List String) (g : String → List V)
    (k : String) (v : V) (hk : k ∈ names) :
    add_measure (names.map (fun n => (n, g n))) k v
      = names.map (fun n => (n, if n = k then g n ++ [v] else g n)) := by
  unfold add_measure
  rw [map_fst_names, if_pos hk, List.map_map]
  apply List.map_congr_left
  intro n hn
  by_cases hnk : n = k <;> simp [hnk]

theorem fold_dict_subset {V : Type} (names : List String) (f : String → V) :
    ∀ (kvs : List String), kvs.Nodup → (∀ k ∈ kvs, k ∈ names) →
      ∀ g : String → List V,
      (kvs.map (fun k => (k, f k))).foldl
          (fun a kv => add_measure a kv.1 kv.2) (names.map (fun n => (n, g n)))
        = names.map (fun n => (n, if n ∈ kvs then g n ++ [f n] else g n)) := by
  intro kvs
  induction kvs with
  | nil => intro _ _ g; simp
  | cons k ks ih =>
    intro hnd hsub g
    simp only [List.map_cons, List.foldl_cons]
    rw [add_measure_in names g k (f k) (hsub k (List.mem_cons_self k ks))]
    rw [ih hnd.of_cons (fun k2 hk2 => hsub k2 (List.mem_cons_of_mem k hk2))]
    apply List.map_congr_left
    intro n hn
    have hknotks : k ∉ ks := (List.nodup_cons.mp hnd).1
    by_cases hnk : n = k
    · subst hnk
      simp [hknotks]
    · by_cases hnks : n ∈ ks <;> simp [hnk, hnks, List.mem_cons]

theorem fold_dict_new_keys {V : Type} (f : String → V) :
    ∀ (kvs : List String) (acc : List (String × List V)),
      kvs.Nodup → (∀ k ∈ kvs, k ∉ acc.map Prod.fst) →
      (kvs.map (fun k => (k, f k))).foldl
          (fun a kv => add_measure a kv.1 kv.2) acc
        = acc ++ kvs.map (fun k => (k, [f k])) := by
  intro kvs
  induction kvs with
  | nil => intro acc _ _; simp
  | cons k ks ih =>
    intro acc hnd hdis
    simp only [List.map_cons, List.foldl_cons]
    rw [add_measure_notin acc k (f k) (hdis k (List.mem_cons_self k ks))]
    rw [ih (acc ++ [(k, [f k])]) hnd.of_cons ?_]
    · simp
    · intro k2 hk2
      have h1 : k2 ∉ acc.map Prod.fst := hdis k2 (List.mem_cons_of_mem k hk2)
      have h2 : k2 ≠ k := fun h => (List.nodup_cons.mp hnd).1 (h ▸ hk2)
      simp [h1, h2]

theorem lookup_map_self {V : Type} (f : String → V) :
    ∀ (names : List String) (n : String), n ∈ names →
      (names.map (fun k => (k, f k))).lookup n = some (f n) := by
  intro names
  induction names with
  | nil => intro n h; simp at h
  | cons m ms ih =>
    intro n hn
    by_cases hnm : n = m
    · subst hnm
      simp [List.lookup]
    · rcases List.mem_cons.mp hn with h | h
      · exact absurd h hnm
      · have hbeq : (n == m) = false := beq_eq_false_iff_ne.mpr hnm
        simp [List.lookup, hbeq]
        exact ih n h

theorem aggregate_eq_reduceOption {V : Type}
    (results : List (Option (List (String × V)))) :
    aggregate results
      = (results.reduceOption).foldl
          (fun acc d => d.foldl (fun a kv => add_measure a kv.1 kv.2) acc)
          [] := by
  unfold aggregate
  suffices h : ∀ acc : List (String × List V),
      results.foldl (fun acc r =>
        match r with
        | none => acc
        | some d => d.foldl (fun a kv => add_measure a kv.1 kv.2) acc) acc
      = (results.reduceOption).foldl
          (fun acc d => d.foldl (fun a kv => add_measure a kv.1 kv.2) acc)
          acc by
    exact h []
  induction results with
  | nil => intro acc; simp
  | cons r rs ih =>
    intro acc
    cases r with
    | none => simp [List.reduceOption_cons_of_none, ih]
    | some d => simp [List.reduceOption_cons_of_some, ih]

theorem aggregate_dicts_go {V : Type} (names : List String)
    (hnd : names.Nodup) :
    ∀ (ds : List (List (String × V))),
      (∀ d ∈ ds, ∃ f : String → V, d = names.map (fun n => (n, f n))) →
      ∀ g : String → List V,
      ds.foldl (fun acc d => d.foldl (fun a kv => add_measure a kv.1 kv.2) acc)
          (names.map (fun n => (n, g n)))
        = names.map
            (fun n => (n, g n ++ ds.filterMap (fun d => d.lookup n))) := by
  intro ds
  induction ds with
  | nil =>
    intro _ g
    simp
  | cons d ds ih =>
    intro hds g
    obtain ⟨f, rfl⟩ := hds d (List.mem_cons_self d ds)
    simp only [List.foldl_cons]
    rw [fold_dict_subset names f names hnd (fun k hk => hk) g]
    have hacc : names.map (fun n => (n, if n ∈ names then g n ++ [f n] else g n))
        = names.map (fun n => (n, g n ++ [f n])) :=
      List.map_congr_left (fun n hn => by simp [hn])
    rw [hacc, ih (fun d2 hd2 => hds d2 (List.mem_cons_of_mem _ hd2))
          (fun n => g n ++ [f n])]
    apply List.map_congr_left
    intro n hn
    simp [List.filterMap_cons, lookup_map_self f names n hn]

theorem aggregate_dicts_shape {V : Type} (names : List String)
    (hnd : names.Nodup) (ds : List (List (String × V)))
    (hds : ∀ d ∈ ds, ∃ f : String → V, d = names.map (fun n => (n, f n))) :
    ds.foldl (fun acc d => d.foldl (fun a kv => add_measure a kv.1 kv.2) acc) []
      = if ds.isEmpty then []
        else names.map (fun n => (n, ds.filterMap (fun d => d.lookup n))) := by
  cases ds with
  | nil => rfl
  | cons d ds =>
    obtain ⟨f, rfl⟩ := hds _ (List.mem_cons_self d ds)
    simp only [List.foldl_cons, List.isEmpty_cons]
    rw [fold_dict_new_keys f names [] hnd (by simp)]
    rw [List.nil_append]
    have hgo := aggregate_dicts_go names hnd ds
        (fun d2 hd2 => hds d2 (List.mem_cons_of_mem _ hd2)) (fun m => [f m])
    rw [hgo, if_neg (by simp)]
    apply List.map_congr_left
    intro n hn
    simp [List.filterMap_cons, lookup_map_self f names n hn]

theorem pool_map_ok_mem {α β : Type} (f : α → Except PyErr β) :
    ∀ (l : List α) (res : List β), pool_map f l = .ok res →
      ∀ r ∈ res, ∃ a ∈ l, f a = .ok r := by
  intro l
  induction l with
  | nil =>
    intro res h r hr
    simp only [pool_map] at h
    cases h
    simp at hr
  | cons a l ih =>
    intro res h r hr
    simp only [pool_map] at h
    cases hfa : f a with
    | error e => rw [hfa] at h; cases h
    | ok b =>
      rw [hfa] at h
      cases hml : pool_map f l with
      | error e => rw [hml] at h; cases h
      | ok bs =>
        rw [hml] at h
        cases h
        rcases List.mem_cons.mp hr with rfl | hr'
        · exact ⟨a, List.mem_cons_self a l, hfa⟩
        · obtain ⟨a2, ha2, hfa2⟩ := ih bs hml r hr'
          exact ⟨a2, List.mem_cons_of_mem a ha2, hfa2⟩

theorem pool_map_error_of_mem {α β : Type} (f : α → Except PyErr β) :
    ∀ (l : List α) (a : α), a ∈ l → (∃ e, f a = .error e) →
      ∃ e2, pool_map f l = .error e2 := by
  intro l
  induction l with
  | nil => intro a ha _; simp at ha
  | cons x xs ih =>
    intro a ha he
    obtain ⟨e, hfa⟩ := he
    simp only [pool_map]
    rcases List.mem_cons.mp ha with rfl | ha'
    · exact ⟨e, by rw [hfa]⟩
    · cases hfx : f x with
      | error e2 => exact ⟨e2, rfl⟩
      | ok b =>
        obtain ⟨e2, hml⟩ := ih a ha' ⟨e, hfa⟩
        exact ⟨e2, by rw [hml]⟩

theorem compute_ok_some {Ref δ V : Type} (E : Externals Ref δ V)
    (p : (String × Ref) × (String × Ref)) (sd dsd : Bool)
    (d : List (String × V))
    (h : (compute_all_measures E p sd dsd).1 = .ok (some d)) :
    ∃ d1 d2 : δ, d = measures_dict E d1 d2 sd dsd := by
  unfold compute_all_measures at h
  by_cases hc : E.is_header_compatible p.1.2 p.2.2
  · rw [if_neg (by simpa using hc)] at h
    cases hl1 : E.load_data_tmp_saving p.1.1 p.1.2 with
    | error e => rw [hl1] at h; simp at h
    | ok o1 =>
      rw [hl1] at h
      cases o1 with
      | none => simp at h
      | some d1 =>
        cases hl2 : E.load_data_tmp_saving p.2.1 p.2.2 with
        | error e => rw [hl2] at h; simp at h
        | ok o2 =>
          rw [hl2] at h
          cases o2 with
          | none => simp at h
          | some d2 =>
            simp only at h
            cases h
            exact ⟨d1, d2, rfl⟩
  · rw [if_pos (by simpa using hc)] at h
    simp at h

theorem main_run_error_of_mem {Ref δ V : Type} (E : Externals Ref δ V)
    (pairs : List ((String × Ref) × (String × Ref))) (sd dsd : Bool)
    (p : (String × Ref) × (String × Ref)) (hp : p ∈ pairs) (e : PyErr)
    (he : (compute_all_measures E p sd dsd).1 = .error e) :
    ∃ e2, main_run E pairs sd dsd
      = (.error e2 : Except PyErr (List (String × List V))) := by
  obtain ⟨e2, h⟩ := pool_map_error_of_mem
    (fun p => (compute_all_measures E p sd dsd).1) pairs p hp ⟨e, he⟩
  exact ⟨e2, by simp [main_run, main_compute, h, Except.map]⟩

theorem compute_error_of_load1 {Ref δ V : Type} (E : Externals Ref δ V)
    (p : (String × Ref) × (String × Ref)) (sd dsd : Bool) (e : PyErr)
    (hc : E.is_header_compatible p.1.2 p.2.2 = true)
    (hl : E.load_data_tmp_saving p.1.1 p.1.2 = .error e) :
    (compute_all_measures E p sd dsd).1
      = (.error e : Except PyErr (Option (List (String × V)))) := by
  simp [compute_all_measures, hc, hl]

theorem compute_error_of_load2 {Ref δ V : Type} (E : Externals Ref δ V)
    (p : (String × Ref) × (String × Ref)) (sd dsd : Bool) (e : PyErr) (d1 : δ)
    (hc : E.is_header_compatible p.1.2 p.2.2 = true)
    (hl1 : E.load_data_tmp_saving p.1.1 p.1.2 = .ok (some d1))
    (hl2 : E.load_data_tmp_saving p.2.1 p.2.2 = .error e) :
    (compute_all_measures E p sd dsd).1
      = (.error e : Except PyErr (Option (List (String × V)))) := by
  simp [compute_all_measures, hc, hl1, hl2]

/-- C7: no partial-failure semantics.  An input bundle whose load raises
(as the first or as the second bundle of a compared pair) makes that
comparison raise, and any comparison that raises makes the whole run
fail with an error before the output JSON is written — the failing
input's comparisons are not skipped with the remaining results still
written. -/
theorem C7_whole_script_fails {Ref δ V : Type} (E : Externals Ref δ V)
    (pairs : List ((String × Ref) × (String × Ref))) (sd dsd : Bool)
    (p : (String × Ref) × (String × Ref)) (hp : p ∈ pairs) :
    (∀ e : PyErr, E.is_header_compatible p.1.2 p.2.2 = true →
        E.load_data_tmp_saving p.1.1 p.1.2 = .error e →
        (compute_all_measures E p sd dsd).1
          = (.error e : Except PyErr (Option (List (String × V)))))
    ∧ (∀ (e : PyErr) (d1 : δ), E.is_header_compatible p.1.2 p.2.2 = true →
        E.load_data_tmp_saving p.1.1 p.1.2 = .ok (some d1) →
        E.load_data_tmp_saving p.2.1 p.2.2 = .error e →
        (compute_all_measures E p sd dsd).1
          = (.error e : Except PyErr (Option (List (String × V)))))
    ∧ (∀ e : PyErr, (compute_all_measures E p sd dsd).1
          = (.error e : Except PyErr (Option (List (String × V)))) →
        ∃ e2, main_run E pairs sd dsd
          = (.error e2 : Except PyErr (List (String × List V)))) :=
  ⟨fun e hc hl => compute_error_of_load1 E p sd dsd e hc hl,
   fun e d1 hc hl1 hl2 => compute_error_of_load2 E p sd dsd e d1 hc hl1 hl2,
   fun e he => main_run_error_of_mem E pairs sd dsd p hp e he⟩

/-- C8: for a compared pair with incompatible spatial headers,
`compute_all_measures` raises a `ValueError` naming the two files
before `load_data_tmp_saving` is called on any bundle (the load trace
is empty), and whenever that pair is among the compared pairs the
exception propagates so the run fails and no output JSON is written. -/
theorem C8_incompatible_headers {Ref δ V : Type} (E : Externals Ref δ V)
    (f1 : String) (r1 : Ref) (f2 : String) (r2 : Ref) (sd dsd : Bool)
    (hc : E.is_header_compatible r1 r2 = false) :
    compute_all_measures E ((f1, r1), (f2, r2)) sd dsd
      = ((.error (.valueError
            (f1 ++ " and " ++ f2 ++ " have incompatible headers"))
          : Except PyErr (Option (List (String × V)))), [])
    ∧ ∀ pairs : List ((String × Ref) × (String × Ref)),
        ((f1, r1), (f2, r2)) ∈ pairs →
        ∃ e, main_run E pairs sd dsd
          = (.error e : Except PyErr (List (String × List V))) := by
  have h1 : compute_all_measures E ((f1, r1), (f2, r2)) sd dsd
      = ((.error (.valueError
            (f1 ++ " and " ++ f2 ++ " have incompatible headers"))
          : Except PyErr (Option (List (String × V)))), []) := by
    simp [compute_all_measures, hc]
  refine ⟨h1, fun pairs hmem => ?_⟩
  exact main_run_error_of_mem E pairs sd dsd _ hmem _
    (by rw [h1])

/-- C6: when the comparison phase completes, the written JSON object
maps each measure name to the list of that measure's values over all
comparisons that produced a result (`None` results are skipped):
every produced comparison dict has exactly the claimed measure-name
set, and the output object is empty when no comparison produced a
result and otherwise holds exactly the claimed names, each with the
per-comparison values of that measure in order. -/
theorem C6_output_measures {Ref δ V : Type} (E : Externals Ref δ V)
    (pairs : List ((String × Ref) × (String × Ref))) (sd dsd : Bool)
    (results : List (Option (List (String × V))))
    (h : main_compute E pairs sd dsd = .ok results) :
    main_run E pairs sd dsd = .ok (aggregate results)
    ∧ (∀ d, some d ∈ results → d.map Prod.fst = measure_names_spec sd dsd)
    ∧ aggregate results
        = (if results.reduceOption.isEmpty then []
           else (measure_names_spec sd dsd).map
             (fun n => (n, results.reduceOption.filterMap
                             (fun d => d.lookup n)))) := by
  have hmem := pool_map_ok_mem
    (fun p => (compute_all_measures E p sd dsd).1) pairs results h
  have hshape : ∀ d ∈ results.reduceOption,
      ∃ f : String → V,
        d = (measure_names_spec sd dsd).map (fun n => (n, f n)) := by
    intro d hd
    obtain ⟨p, hp, hok⟩ := hmem (some d) (List.reduceOption_mem_iff.mp hd)
    obtain ⟨d1, d2, rfl⟩ := compute_ok_some E p sd dsd d hok
    exact ⟨measure_value E d1 d2 sd, measures_dict_eq_map E d1 d2 sd dsd⟩
  refine ⟨by simp [main_run, h, Except.map], ?_, ?_⟩
  · intro d hd
    obtain ⟨p, hp, hok⟩ := hmem (some d) hd
    obtain ⟨d1, d2, rfl⟩ := compute_ok_some E p sd dsd d hok
    exact measures_dict_keys E d1 d2 sd dsd
  · rw [aggregate_eq_reduceOption]
    exact aggregate_dicts_shape (measure_names_spec sd dsd)
      (measure_names_spec_nodup sd dsd) results.reduceOption hshape

/-- Concrete externals for the C6-C8 witnesses: references are compatible
iff equal, `bad.trk` raises on load, `empty.trk` is an empty bundle,
everything else loads. -/
def exampleExternals : Externals ℕ Unit ℕ :=
  { is_header_compatible := fun r1 r2 => r1 == r2
    load_data_tmp_saving := fun f _ =>
      if f = "bad.trk" then .error (.libraryError "failed to load")
      else if f = "empty.trk" then .ok none
      else .ok (some ())
    compute_bundle_adjacency_voxel := fun _ _ => 0
    dice_vox := fun _ _ => 1
    w_dice_vox := fun _ _ => 2
    volume_overlap_mm3 := fun _ _ => 3
    volume_overreach_mm3 := fun _ _ => 4
    dice_vox_endpoints := fun _ _ => 5
    w_dice_vox_endpoints := fun _ _ => 6
    volume_overlap_endpoints_mm3 := fun _ _ => 7
    volume_overreach_endpoints_mm3 := fun _ _ => 8
    density_correlation := fun _ _ => 9
    density_correlation_endpoints := fun _ _ => 10
    bundle_adjacency_streamlines := fun _ _ => 11
    bundle_adjacency_streamlines_centroids := fun _ _ => 12
    dice_streamlines := fun _ _ => 13
    streamlines_count_overlap := fun _ _ => 14
    streamlines_count_overreach := fun _ _ => 15 }

/-- Witness for C6: one compatible, loadable pair with
`--streamline_dice`. -/
theorem C6_output_measures_witness :
    main_run exampleExternals [(("a.trk", 0), ("b.trk", 0))] true false
      = .ok (aggregate [some (measures_dict exampleExternals () () true false)])
    ∧ (∀ d, some d ∈ [some (measures_dict exampleExternals () () true false)] →
        d.map Prod.fst = measure_names_spec true false)
    ∧ aggregate [some (measures_dict exampleExternals () () true false)]
        = (if ([some (measures_dict exampleExternals () () true
                  false)].reduceOption).isEmpty then []
           else (measure_names_spec true false).map
             (fun n => (n, ([some (measures_dict exampleExternals () () true
                               false)].reduceOption).filterMap
                             (fun d => d.lookup n)))) :=
  C6_output_measures exampleExternals [(("a.trk", 0), ("b.trk", 0))] true false
    [some (measures_dict exampleExternals () () true false)] rfl

/-- Witness for C7 at the pair whose first bundle (`bad.trk`) raises on
load. -/
theorem C7_whole_script_fails_witness :
    (∀ e : PyErr,
        exampleExternals.is_header_compatible
          (("bad.trk", 0), ("c.trk", 0)).1.2 (("bad.trk", 0), ("c.trk", 0)).2.2
          = true →
        exampleExternals.load_data_tmp_saving
          (("bad.trk", 0), ("c.trk", 0)).1.1 (("bad.trk", 0), ("c.trk", 0)).1.2
          = .error e →
        (compute_all_measures exampleExternals
          (("bad.trk", 0), ("c.trk", 0)) false false).1
          = (.error e : Except PyErr (Option (List (String × ℕ)))))
    ∧ (∀ (e : PyErr) (d1 : Unit),
        exampleExternals.is_header_compatible
          (("bad.trk", 0), ("c.trk", 0)).1.2 (("bad.trk", 0), ("c.trk", 0)).2.2
          = true →
        exampleExternals.load_data_tmp_saving
          (("bad.trk", 0), ("c.trk", 0)).1.1 (("bad.trk", 0), ("c.trk", 0)).1.2
          = .ok (some d1) →
        exampleExternals.load_data_tmp_saving
          (("bad.trk", 0), ("c.trk", 0)).2.1 (("bad.trk", 0), ("c.trk", 0)).2.2
          = .error e →
        (compute_all_measures exampleExternals
          (("bad.trk", 0), ("c.trk", 0)) false false).1
          = (.error e : Except PyErr (Option (List (String × ℕ)))))
    ∧ (∀ e : PyErr,
        (compute_all_measures exampleExternals
          (("bad.trk", 0), ("c.trk", 0)) false false).1
          = (.error e : Except PyErr (Option (List (String × ℕ)))) →
        ∃ e2, main_run exampleExternals [(("bad.trk", 0), ("c.trk", 0))]
            false false
          = (.error e2 : Except PyErr (List (String × List ℕ)))) :=
  C7_whole_script_fails exampleExternals [(("bad.trk", 0), ("c.trk", 0))]
    false false (("bad.trk", 0), ("c.trk", 0)) (List.mem_cons_self _ _)

/-- Witness for C8 at a pair with incompatible references. -/
theorem C8_incompatible_headers_witness :
    compute_all_measures exampleExternals (("a.trk", 0), ("b.trk", 1))
        false false
      = ((.error (.valueError
            ("a.trk" ++ " and " ++ "b.trk" ++ " have incompatible headers"))
          : Except PyErr (Option (List (String × ℕ)))), [])
    ∧ ∀ pairs : List ((String × ℕ) × (String × ℕ)),
        (("a.trk", 0), ("b.trk", 1)) ∈ pairs →
        ∃ e, main_run exampleExternals pairs false false
          = (.error e : Except PyErr (List (String × List ℕ))) :=
  C8_incompatible_headers exampleExternals "a.trk" 0 "b.trk" 1 false false rfl

end BundleSim

namespace EndpointsMetric

/-!
## scripts/scil_endpoints_metric.py

### Module scope and the `main` prefix (C5)

`main` (line 81) calls `assert_outputs_dir_exists_and_empty`, but the
module imports `assert_output_dirs_exist_and_empty` (line 15) and never
binds the former name, so Python raises `NameError` there.  The module
scope is the list of global names bound by the import statements
(lines 3-20) and the module-level `def`s; `main` is modelled as the
sequence of its statements, each resolving the global names it uses, in
execution order. -/

/-- The global names bound in scripts/scil_endpoints_metric.py: imports
(lines 3-20) and module-level function definitions. -/
def module_scope : List String :=
  ["argparse", "logging", "os", "nib", "ArraySequence", "np",
   "assert_same_resolution", "load_tractogram_with_reference",
   "add_overwrite_arg", "assert_inputs_exist",
   "assert_output_dirs_exist_and_empty", "add_reference_arg",
   "split_name_with_nii", "compute_tract_counts_map", "uncompress",
   "_build_arg_parser", "_compute_streamline_mean", "_process_streamlines",
   "main"]

/-- The observable effects of `main` that C5 is about: loading the
metric volumes (line 83) and saving an endpoint-metric map (line 118). -/
inductive Effect where
  | load_metric_volumes
  | save_endpoint_map
  deriving DecidableEq, Repr

/-- A statement of `main`, abstracted to what it can do: resolve a
global name, check that the inputs exist (`assert_inputs_exist` exits
with a usage error when they do not), or perform an effect. -/
inductive Stmt where
  | ref (name : String)
  | check_inputs
  | eff (e : Effect)
  deriving DecidableEq, Repr

/-- The statements of `main` (lines 76-122) in execution order, each
listed with the global names it resolves; the part below line 93 is the
non-empty-bundle path. -/
def main_stmts : List Stmt :=
  [.ref "_build_arg_parser",
   .ref "assert_inputs_exist", .check_inputs,
   .ref "assert_outputs_dir_exists_and_empty",
   .ref "nib", .eff .load_metric_volumes,
   .ref "assert_same_resolution",
   .ref "load_tractogram_with_reference",
   .ref "_process_streamlines",
   .ref "_compute_streamline_mean",
   .ref "np",
   .ref "split_name_with_nii",
   .ref "os",
   .ref "nib", .eff .save_endpoint_map]

/-- Execute statements in order; a global name not bound in the module
scope raises `NameError` at that statement, stopping the run with the
effects performed so far. -/
def run_stmts (inputs_exist : Bool) :
    List Stmt → List Effect → (Except PyErr Unit) × List Effect
  | [], effs => (.ok (), effs)
  | .ref n :: rest, effs =>
      if n ∈ module_scope then run_stmts inputs_exist rest effs
      else (.error (.nameError n), effs)
  | .check_inputs :: rest, effs =>
      if inputs_exist then run_stmts inputs_exist rest effs
      else (.error (.usageError "inputs do not exist"), effs)
  | .eff e :: rest, effs => run_stmts inputs_exist rest (effs ++ [e])

/-- A run of `main` given whether the input files exist. -/
def run_main (inputs_exist : Bool) : (Except PyErr Unit) × List Effect :=
  run_stmts inputs_exist main_stmts []

/-- C5: with existing inputs, `main` raises
`NameError("assert_outputs_dir_exists_and_empty")` at the
output-directory check, having performed no effect: the metric volumes
are never loaded and no endpoint-metric output is written.  The called
name is unbound in the module scope while the similarly spelt import
`assert_output_dirs_exist_and_empty` is bound. -/
theorem C5_main_name_error :
    run_main true
      = (.error (.nameError "assert_outputs_dir_exists_and_empty"), [])
    ∧ "assert_outputs_dir_exists_and_empty" ∉ module_scope
    ∧ "assert_output_dirs_exist_and_empty" ∈ module_scope := by
  exact ⟨rfl, by decide, by decide⟩

/-!
### The endpoint-projection computation (C4, lines 43-54 and 95-122)

The metric loop is embedded over an abstract voxel-index type `V`.
A streamline enters the loop through its two endpoint voxels
(`orig_s[0, :].astype(int)` and `orig_s[-1, :].astype(int)`), the voxel
box of `data[cur_min:cur_max]`, and the per-voxel density that the
external `compute_tract_counts_map` (scilpy.tractanalysis, not under
src/) rasterizes for it; metric values are `ℚ`. -/

/-- The per-streamline inputs of the metric loop. -/
structure StreamlineData (V : Type) where
  head : V
  tail : V
  box : List V
  density : V → ℚ

/-- Lines 43-54: `np.average(streamline_data, weights=streamline_density)`,
the density-weighted mean of the metric over the streamline's voxels. -/
def _compute_streamline_mean {V : Type} (s : StreamlineData V)
    (data : V → ℚ) : ℚ :=
  (s.box.map (fun v => s.density v * data v)).sum / (s.box.map s.density).sum

/-- The accumulation loop of lines 99-113: for each streamline, its mean
is added at its head voxel and at its tail voxel, and the endpoint count
of each of the two voxels is incremented (separately, so a streamline
with both endpoints in one voxel contributes twice there). -/
def endpoint_fold {V : Type} [DecidableEq V]
    (streamlines : List (StreamlineData V)) (data : V → ℚ) :
    (V → ℚ) × (V → ℕ) :=
  streamlines.foldl (fun mc s =>
    let sm := _compute_streamline_mean s data
    let m1 : V → ℚ := fun v => if v = s.head then mc.1 v + sm else mc.1 v
    let c1 : V → ℕ := fun v => if v = s.head then mc.2 v + 1 else mc.2 v
    let m2 : V → ℚ := fun v => if v = s.tail then m1 v + sm else m1 v
    let c2 : V → ℕ := fun v => if v = s.tail then c1 v + 1 else c1 v
    (m2, c2)) (fun _ => 0, fun _ => 0)

/-- Line 115: `endpoint_metric_map[count != 0] /= count[count != 0]`;
voxels with a zero count keep their accumulated value (initially the
`np.zeros` value `0`). -/
def endpoint_metric_map {V : Type} [DecidableEq V]
    (streamlines : List (StreamlineData V)) (data : V → ℚ) : V → ℚ :=
  let mc := endpoint_fold streamlines data
  fun v => if mc.2 v ≠ 0 then mc.1 v / (mc.2 v : ℚ) else mc.1 v

/-- The streamline means of all endpoints falling in voxel `v`, head and
tail counted separately, in streamline order. -/
def endpoint_means_at {V : Type} [DecidableEq V]
    (streamlines : List (StreamlineData V)) (data : V → ℚ) (v : V) : List ℚ :=
  streamlines.foldr (fun s acc =>
    (if v = s.head then [_compute_streamline_mean s data] else [])
      ++ (if v = s.tail then [_compute_streamline_mean s data] else [])
      ++ acc) []

theorem endpoint_fold_go {V : Type} [DecidableEq V]
    (streamlines : List (StreamlineData V)) (data : V → ℚ) :
    ∀ (m0 : V → ℚ) (c0 : V → ℕ) (v : V),
      (streamlines.foldl (fun mc s =>
        let sm := _compute_streamline_mean s data
        let m1 : V → ℚ := fun v => if v = s.head then mc.1 v + sm else mc.1 v
        let c1 : V → ℕ := fun v => if v = s.head then mc.2 v + 1 else mc.2 v
        let m2 : V → ℚ := fun v => if v = s.tail then m1 v + sm else m1 v
        let c2 : V → ℕ := fun v => if v = s.tail then c1 v + 1 else c1 v
        (m2, c2)) (m0, c0)).1 v
          = m0 v + (endpoint_means_at streamlines data v).sum
      ∧ (streamlines.foldl (fun mc s =>
        let sm := _compute_streamline_mean s data
        let m1 : V → ℚ := fun v => if v = s.head then mc.1 v + sm else mc.1 v
        let c1 : V → ℕ := fun v => if v = s.head then mc.2 v + 1 else mc.2 v
        let m2 : V → ℚ := fun v => if v = s.tail then m1 v + sm else m1 v
        let c2 : V → ℕ := fun v => if v = s.tail then c1 v + 1 else c1 v
        (m2, c2)) (m0, c0)).2 v
          = c0 v + (endpoint_means_at streamlines data v).length := by
  induction streamlines with
  | nil =>
    intro m0 c0 v
    simp [endpoint_means_at]
  | cons s ss ih =>
    intro m0 c0 v
    simp only [List.foldl_cons]
    by_cases hh : v = s.head
    · by_cases ht : v = s.tail
      · have hst : s.head = s.tail := hh.symm.trans ht
        constructor
        · rw [(ih _ _ v).1]
          simp only [endpoint_means_at, List.foldr_cons, List.sum_append]
          simp [hh, ht, hst]
          ring
        · rw [(ih _ _ v).2]
          simp only [endpoint_means_at, List.foldr_cons, List.length_append]
          simp [hh, ht, hst]
          omega
      · have hst : ¬ s.head = s.tail := fun h => ht (hh.trans h)
        constructor
        · rw [(ih _ _ v).1]
          simp only [endpoint_means_at, List.foldr_cons, List.sum_append]
          simp [hh, ht, hst]
          ring
        · rw [(ih _ _ v).2]
          simp only [endpoint_means_at, List.foldr_cons, List.length_append]
          simp [hh, ht, hst]
          omega
    · by_cases ht : v = s.tail
      · have hst : ¬ s.tail = s.head := fun h => hh (ht.trans h)
        constructor
        · rw [(ih _ _ v).1]
          simp only [endpoint_means_at, List.foldr_cons, List.sum_append]
          simp [hh, ht, hst]
          ring
        · rw [(ih _ _ v).2]
          simp only [endpoint_means_at, List.foldr_cons, List.length_append]
          simp [hh, ht, hst]
          omega
      · constructor
        · rw [(ih _ _ v).1]
          simp only [endpoint_means_at, List.foldr_cons, List.sum_append]
          simp [hh, ht]
        · rw [(ih _ _ v).2]
          simp only [endpoint_means_at, List.foldr_cons, List.length_append]
          simp [hh, ht]

theorem endpoint_fold_spec {V : Type} [DecidableEq V]
    (streamlines : List (StreamlineData V)) (data : V → ℚ) (v : V) :
    (endpoint_fold streamlines data).1 v
        = (endpoint_means_at streamlines data v).sum
    ∧ (endpoint_fold streamlines data).2 v
        = (endpoint_means_at streamlines data v).length := by
  have h := endpoint_fold_go streamlines data (fun _ => 0) (fun _ => 0) v
  constructor
  · simpa [endpoint_fold] using h.1
  · simpa [endpoint_fold] using h.2

/-- An input metric volume: shape, affine, header (abstract, copied
verbatim to the output) and the voxel data. -/
structure MetricImage (V S A H : Type) where
  shape : S
  affine : A
  header : H
  data : V → ℚ

/-- The saved output image (lines 116-122). -/
structure OutImage (V S A H : Type) where
  shape : S
  affine : A
  header : H
  data : V → ℚ

/-- Lines 95-122 for one metric: the output Nifti image written for it,
`nib.Nifti1Image(endpoint_metric_map, metric.affine, metric.header)`
with data of shape `metric.shape`. -/
def endpoint_image {V S A H : Type} [DecidableEq V]
    (metric : MetricImage V S A H)
    (streamlines : List (StreamlineData V)) : OutImage V S A H :=
  { shape := metric.shape
    affine := metric.affine
    header := metric.header
    data := endpoint_metric_map streamlines metric.data }

/-- C4: in the output map of the endpoint-projection computation, every
voxel holding at least one streamline endpoint (head and tail counted
separately) carries the arithmetic mean of the owning streamlines'
density-weighted metric means over their traversed voxels; every voxel
holding no endpoint is exactly `0`; and the output image keeps the
metric's shape, affine and header. -/
theorem C4_endpoint_projection {V S A H : Type} [DecidableEq V]
    (metric : MetricImage V S A H)
    (streamlines : List (StreamlineData V)) (v : V) :
    ((endpoint_means_at streamlines metric.data v ≠ [] →
        (endpoint_image metric streamlines).data v
          = (endpoint_means_at streamlines metric.data v).sum
              / ((endpoint_means_at streamlines metric.data v).length : ℚ))
     ∧ (endpoint_means_at streamlines metric.data v = [] →
        (endpoint_image metric streamlines).data v = 0))
    ∧ (endpoint_image metric streamlines).shape = metric.shape
    ∧ (endpoint_image metric streamlines).affine = metric.affine
    ∧ (endpoint_image metric streamlines).header = metric.header := by
  have hspec := endpoint_fold_spec streamlines metric.data v
  refine ⟨⟨?_, ?_⟩, rfl, rfl, rfl⟩
  · intro hne
    have hlen : (endpoint_means_at streamlines metric.data v).length ≠ 0 :=
      fun h => hne (List.eq_nil_of_length_eq_zero h)
    simp only [endpoint_image, endpoint_metric_map, hspec.1, hspec.2]
    simp [hlen]
  · intro hnil
    simp only [endpoint_image, endpoint_metric_map, hspec.1, hspec.2, hnil]
    simp

/-- A concrete metric volume for the C4 witness. -/
def exampleMetric : MetricImage ℕ ℕ ℕ ℕ :=
  { shape := 5, affine := 7, header := 9, data := fun _ => 3 }

/-- A concrete streamline (head voxel 0, tail voxel 1) for the C4
witness. -/
def exampleStreamline : StreamlineData ℕ :=
  { head := 0, tail := 1, box := [0, 1], density := fun _ => 1 }

/-- Witness for C4: voxel 0 holds one endpoint and receives that
streamline's mean; voxel 2 holds none and is `0`. -/
theorem C4_endpoint_projection_witness :
    (endpoint_means_at [exampleStreamline] exampleMetric.data 0 ≠ [] ∧
      (endpoint_image exampleMetric [exampleStreamline]).data 0
        = (endpoint_means_at [exampleStreamline] exampleMetric.data 0).sum
            / ((endpoint_means_at [exampleStreamline]
                  exampleMetric.data 0).length : ℚ)) ∧
    (endpoint_means_at [exampleStreamline] exampleMetric.data 2 = [] ∧
      (endpoint_image exampleMetric [exampleStreamline]).data 2 = 0) :=
  ⟨⟨by decide,
    (C4_endpoint_projection exampleMetric [exampleStreamline] 0).1.1 (by decide)⟩,
   ⟨by decide,
    (C4_endpoint_projection exampleMetric [exampleStreamline] 2).1.2 (by decide)⟩⟩

end EndpointsMetric

namespace ScreenshotDti

/-!
## scripts/scil_screenshot_dti.py

Lines 144-158 build the three output paths, one per axis in the order
sagittal, coronal, axial, via `os.path.join(args.output_dir, ...)`;
`if args.output_suffix` is a Python truthiness test, so only a
non-empty suffix switches to the `<axis>_<suffix>.png` form.
Lines 181-195 issue one `display_slices` call per axis, each passing
the output filename at its own axis's index. -/

/-- `os.path.join(dir, f)` for the relative path names this script
builds: with `dir` empty it is `f`, and a single separator is inserted
otherwise. -/
def pyJoin (dir f : String) : String :=
  if dir = "" then f
  else if dir.endsWith "/" then dir ++ f
  else dir ++ "/" ++ f

/-- Python truthiness of an optional string: `None` and `''` are falsy. -/
def truthyStr : Option String → Bool
  | none => false
  | some s => s ≠ ""

/-- The loop order of line 145: `['sagittal', 'coronal', 'axial']`. -/
def axis_names : List String := ["sagittal", "coronal", "axial"]

/-- Lines 144-153: the `output_filenames` list. -/
def output_filenames (output_dir : String) (output_suffix : Option String) :
    List String :=
  axis_names.map (fun axis_name =>
    if truthyStr output_suffix then
      pyJoin output_dir (axis_name ++ "_" ++ output_suffix.getD "" ++ ".png")
    else
      pyJoin output_dir (axis_name ++ ".png"))

/-- Lines 181-195: the three `display_slices` calls as (output path,
axis name) pairs, in call order. -/
def display_slices_calls (output_dir : String) (output_suffix : Option String) :
    List (String × String) :=
  let fns := output_filenames output_dir output_suffix
  [(fns.getD 0 "", "sagittal"), (fns.getD 1 "", "coronal"),
   (fns.getD 2 "", "axial")]

/-- C10: the run produces exactly three PNG output paths in the order
sagittal, coronal, axial, named `<axis>.png` inside the output
directory, or `<axis>_<suffix>.png` when a (non-empty) suffix is given;
and each `display_slices` call targets the path of its own axis. -/
theorem C10_three_axis_screenshots (output_dir : String)
    (output_suffix : Option String) :
    (output_filenames output_dir none
        = [pyJoin output_dir "sagittal.png", pyJoin output_dir "coronal.png",
           pyJoin output_dir "axial.png"])
    ∧ (∀ suf : String, suf ≠ "" →
        output_filenames output_dir (some suf)
          = [pyJoin output_dir ("sagittal_" ++ suf ++ ".png"),
             pyJoin output_dir ("coronal_" ++ suf ++ ".png"),
             pyJoin output_dir ("axial_" ++ suf ++ ".png")])
    ∧ (output_filenames output_dir output_suffix).length = 3
    ∧ display_slices_calls output_dir output_suffix
        = (output_filenames output_dir output_suffix).zip axis_names := by
  refine ⟨?_, ?_, ?_, ?_⟩
  · simp [output_filenames, axis_names, truthyStr]
  · intro suf hsuf
    simp [output_filenames, axis_names, truthyStr, hsuf]
  · simp [output_filenames, axis_names]
  · cases output_suffix with
    | none =>
      simp [display_slices_calls, output_filenames, axis_names, truthyStr]
    | some s =>
      by_cases hs : s = "" <;>
        simp [display_slices_calls, output_filenames, axis_names, truthyStr, hs]

/-- Witness for C10 at `--output_dir out` with and without
`--output_suffix qc`. -/
theorem C10_three_axis_screenshots_witness :
    (output_filenames "out" none
        = [pyJoin "out" "sagittal.png", pyJoin "out" "coronal.png",
           pyJoin "out" "axial.png"])
    ∧ (output_filenames "out" (some "qc")
        = [pyJoin "out" ("sagittal_" ++ "qc" ++ ".png"),
           pyJoin "out" ("coronal_" ++ "qc" ++ ".png"),
           pyJoin "out" ("axial_" ++ "qc" ++ ".png")])
    ∧ (output_filenames "out" (some "qc")).length = 3
    ∧ display_slices_calls "out" (some "qc")
        = (output_filenames "out" (some "qc")).zip axis_names :=
  ⟨(C10_three_axis_screenshots "out" (some "qc")).1,
   (C10_three_axis_screenshots "out" (some "qc")).2.1 "qc" (by decide),
   (C10_three_axis_screenshots "out" (some "qc")).2.2.1,
   (C10_three_axis_screenshots "out" (some "qc")).2.2.2⟩

end ScreenshotDti

end Scilpy
